import Mathlib

/-!
Shallow embedding of the retry/stage/execute orchestration of the
packer-plugin-win-update provisioner (Go package `update`, file
provisioner/update/provisioner.go), together with theorems checking the
specification of that orchestration against the embedded code.

Modelling conventions:
* Go strings are modelled as `List Char` (their rune sequence); byte slices
  as `List Nat`, every entry below 256.
* Go `error` values are modelled by the inductive `GoError`; `nil` is `none`.
* The external environment (the local filesystem used by `os.CreateTemp`
  and the remote channel used by `packer.RemoteCmd.RunWithUi`) is an oracle
  giving the outcome of each attempt; theorems quantify over those oracles.
* `time.Duration` values are modelled as `Int` nanosecond counts.
* The retry primitive `retry.Config.Run` comes from the external
  packer-plugin-sdk, not from this repository; it is modelled from the
  spec's contract for it (invoke the attempt up to `maxAttempts` times,
  stop early on a non-error attempt, report the last error wrapped after
  exhaustion).  Wall-clock timeouts and inter-attempt delays are outside
  the embedding; the attempt bound alone is modelled.
-/

namespace Update

/-- Errors produced by the provisioner code paths (one constructor per
`fmt.Errorf` site in provisioner.go) plus the wrapper produced by the SDK
retry primitive after exhausting its attempts. -/
inductive GoError where
  | emptyScriptContents
  | createTempError
  | writeTempError
  | closeTempError
  | emptyFilePath
  | emptyScriptPath
  | runWithUiError
  | nonZeroExit (code : Int)
  | provisionNonZeroExit (code : Int)
  | retryExhaustedNone
  | retryExhausted (inner : GoError)
deriving DecidableEq

/-- Source constant: amount of time to wait for a restart (1 hour). -/
def DefaultRestartTimeout : Int := 3600 * 1000000000

/-- Source constant: times to retry uploading the Windows Update script. -/
def DefaultUploadRetryAttempts : Nat := 5

/-- Source constant: delay between upload retries (30 seconds). -/
def DefaultUploadRetryDelay : Int := 30 * 1000000000

/-- Source constant: time to wait for the script upload (5 minutes). -/
def DefaultUploadTimeout : Int := 5 * 60 * 1000000000

/-- Source constant: times to invoke the Windows Update script. -/
def DefaultUpdateRetryAttempts : Nat := 5

/-- Source constant: default time to wait for Windows to finish updating (4 hours). -/
def DefaultUpdateTimeout : Int := 4 * 3600 * 1000000000

/-- Source constant: default wait before retrying the update script (10 seconds). -/
def DefaultUpdateRetryDelay : Int := 10 * 1000000000

/-- Source constant: "Default Update Attempts"; declared in the source but
never read by `Prepare`, which uses `DefaultUpdateRetryAttempts` instead. -/
def DefaultUpdateAttempts : Nat := 3

/-- Source constant: the restart command. -/
def RestartCommand : List Char :=
  "shutdown.exe -f -r -t 0 -c \"Packer Windows Update Restart\"".toList

/-- The `Config` struct of the provisioner (mapstructure fields only; the
interpolation context is glue and is omitted). -/
structure Config where
  username : List Char := []
  password : List Char := []
  categoryIDs : Option (List (List Char)) := none
  cabFiles : Option (List (List Char)) := none
  installAllUpdates : Bool := false
  includeHiddenUpdates : Bool := false
  installOptionalUpdates : Bool := false
  installRecommendedUpdates : Bool := false
  installImportantUpdates : Bool := false
  updateTimeout : Int := 0
  updateRetryAttempts : Nat := 0
  uploadRetryAttempts : Nat := 0
  uploadRetryDelay : Int := 0
  uploadTimeout : Int := 0
  restartTimeout : Int := 0
  disableRestartAfterUpdates : Bool := false

/-- The defaulting and install-all logic of `Prepare` (provisioner.go lines
152-193): apply each default when the decoded value is unset, then enable
`installAllUpdates` when no specific update selection was made.  The
mapstructure decode itself and the cab-file/UUID validation are external
library calls and are not part of the embedding; they do not touch the
retry-attempt fields.  `uint` fields are `Nat`, so the Go test `<= 0`
is the same test here. -/
def prepareDefaults (c0 : Config) : Config :=
  let c1 := if c0.uploadRetryAttempts ≤ 0 then
    { c0 with uploadRetryAttempts := DefaultUploadRetryAttempts } else c0
  let c2 := if c1.uploadRetryDelay ≤ 0 then
    { c1 with uploadRetryDelay := DefaultUploadRetryDelay } else c1
  let c3 := if c2.uploadTimeout ≤ 0 then
    { c2 with uploadTimeout := DefaultUploadTimeout } else c2
  let c4 := if c3.restartTimeout ≤ 0 then
    { c3 with restartTimeout := DefaultRestartTimeout } else c3
  let c5 := if c4.updateRetryAttempts ≤ 0 then
    { c4 with updateRetryAttempts := DefaultUpdateRetryAttempts } else c4
  let c6 := if c5.updateTimeout ≤ 0 then
    { c5 with updateTimeout := DefaultUpdateTimeout } else c5
  let specifiedUpdates : Bool := c6.installImportantUpdates ||
    c6.installOptionalUpdates ||
    c6.installRecommendedUpdates ||
    c6.cabFiles.isSome ||
    c6.categoryIDs.isSome
  if !specifiedUpdates then { c6 with installAllUpdates := true } else c6

/-- One UTF-16 encoding step of `unicode/utf16.Encode` for a single rune
value: one code unit for scalar values below 0x10000 outside the surrogate
range, a surrogate pair for values in [0x10000, 0x10FFFF], and the
replacement character otherwise. -/
def utf16EncodeChar (v : Nat) : List Nat :=
  if v < 0xD800 then [v]
  else if 0xE000 ≤ v ∧ v < 0x10000 then [v]
  else if 0x10000 ≤ v ∧ v ≤ 0x10FFFF then
    [0xD800 + (v - 0x10000) / 0x400, 0xDC00 + (v - 0x10000) % 0x400]
  else [0xFFFD]

/-- `utf16.Encode([]rune(s))`: the UTF-16 code units of a string. -/
def utf16Encode : List Char → List Nat
  | [] => []
  | c :: rest => utf16EncodeChar c.toNat ++ utf16Encode rest

/-- The byte-layout loop of `encodeUtf16Le`: for each code unit `r`, first
`byte(r)` then `byte(r >> 8)` (little-endian, no byte-order mark). -/
def utf16LeBytes : List Nat → List Nat
  | [] => []
  | r :: rest => r % 256 :: r / 256 % 256 :: utf16LeBytes rest

/-- `encodeUtf16Le` from provisioner.go: UTF-16 code units of the string,
laid out little-endian. -/
def encodeUtf16Le (s : List Char) : List Nat :=
  utf16LeBytes (utf16Encode s)

/-- The standard base64 alphabet used by Go's `base64.StdEncoding`. -/
def b64Chars : List Char :=
  "ABCDEFGHIJKLMNOPQRSTUVWXYZabcdefghijklmnopqrstuvwxyz0123456789+/".toList

/-- Character for a 6-bit value in the standard base64 alphabet. -/
def b64Char (n : Nat) : Char := b64Chars.getD n 'A'

/-- Index search used to define the 6-bit value of a base64 character. -/
def b64ValAux : List Char → Nat → Char → Nat
  | [], _, _ => 64
  | a :: rest, i, c => if a = c then i else b64ValAux rest (i+1) c

/-- 6-bit value of a base64 alphabet character (64 when not in the alphabet). -/
def b64Val (c : Char) : Nat := b64ValAux b64Chars 0 c

/-- `base64.StdEncoding.EncodeToString`: encode bytes in groups of three,
padding the final group with `=`. -/
def base64EncodeChunks : List Nat → List Char
  | [] => []
  | [b1] => [b64Char (b1 / 4), b64Char (b1 % 4 * 16), '=' , '=' ]
  | [b1, b2] =>
      [b64Char (b1 / 4), b64Char (b1 % 4 * 16 + b2 / 16), b64Char (b2 % 16 * 4), '=' ]
  | b1 :: b2 :: b3 :: rest =>
      b64Char (b1 / 4) :: b64Char (b1 % 4 * 16 + b2 / 16) ::
      b64Char (b2 % 16 * 4 + b3 / 64) :: b64Char (b3 % 64) :: base64EncodeChunks rest

/-- Standard base64 decoding in groups of four characters, honouring `=`
padding; used to state the round-trip property of the produced argument. -/
def base64DecodeChars : List Char → List Nat
  | c1 :: c2 :: c3 :: c4 :: rest =>
      if c3 = '=' then [b64Val c1 * 4 + b64Val c2 / 16]
      else if c4 = '=' then
        [b64Val c1 * 4 + b64Val c2 / 16, b64Val c2 % 16 * 16 + b64Val c3 / 4]
      else
        (b64Val c1 * 4 + b64Val c2 / 16) :: (b64Val c2 % 16 * 16 + b64Val c3 / 4) ::
        (b64Val c3 % 4 * 64 + b64Val c4) :: base64DecodeChars rest
  | _ => []

/-- The fixed text in front of the encoded command in
`getWindowsUpdateCommand`. -/
def commandHeadText : List Char :=
  "PowerShell -ExecutionPolicy Bypass -NoProfile -OutputFormat Text -EncodedCommand ".toList

/-- `getWindowsUpdateCommand` from provisioner.go: the PowerShell invocation
whose `-EncodedCommand` argument is the base64 of the UTF-16LE bytes of the
script path handed to it. -/
def getWindowsUpdateCommand (script : List Char) : List Char :=
  commandHeadText ++ base64EncodeChunks (encodeUtf16Le script)

/-- Spec-side definition, from the spec's words: `utf16le_bytes(s)` is the
sequence whose 16-bit code units are the characters of `s`, one unit per
character, each unit written as two bytes little-endian with no byte-order
mark.  (For the printable-ASCII strings the round-trip claim quantifies
over, one character is one code unit.) -/
def specUtf16leBytes : List Char → List Nat
  | [] => []
  | c :: rest => c.toNat % 256 :: c.toNat / 256 % 256 :: specUtf16leBytes rest

/-- Modelled from the spec: the `RetryExhausted` wrapper the SDK retry
primitive puts around the last observed error (which may be absent). -/
def mkRetryExhausted : Option GoError → GoError
  | none => .retryExhaustedNone
  | some e => .retryExhausted e

/-- Modelled from the spec: the retry primitive shared by both phases
(`retry.Config.Run` of the packer-plugin-sdk, which is not part of this
repository's sources).  `step i s` runs attempt number `i` from state `s`;
a `none` error stops the loop, any error is retried, and after `fuel`
attempts the last error is returned wrapped.  The middle component of the
result is ghost instrumentation: the total number of attempts issued.
Wall-clock timeout and retry delay are not modelled. -/
def retryRunAux {σ : Type} (step : Nat → σ → σ × Option GoError) :
    Nat → Nat → Option GoError → σ → σ × Nat × Option GoError
  | 0, i, last, s => (s, i, some (mkRetryExhausted last))
  | fuel+1, i, _, s =>
    match step i s with
    | (s', none) => (s', i+1, none)
    | (s', some e) => retryRunAux step fuel (i+1) (some e) s'

/-- Run the retry primitive with `tries` as the attempt budget
(`Config.Tries` of the SDK; the provisioner always passes a budget from a
config field that `Prepare` has defaulted to a positive value). -/
def retryRun {σ : Type} (step : Nat → σ → σ × Option GoError) (tries : Nat) (s : σ) :
    σ × Nat × Option GoError :=
  retryRunAux step tries 0 none s

/-- State reached after running attempts `i, i+1, ..., i+n-1` in order,
ignoring their error components; matches the states the retry loop passes
through while attempts keep failing. -/
def iterStep {σ : Type} (step : Nat → σ → σ × Option GoError) (s : σ) (i : Nat) : Nat → σ
  | 0 => s
  | n+1 => (step (i + n) (iterStep step s i n)).1

/-- `appendMap f n = f 0 ++ f 1 ++ ... ++ f (n-1)`: the in-order
concatenation of the first `n` blocks. -/
def appendMap {α : Type} (f : Nat → List α) : Nat → List α
  | 0 => []
  | n+1 => appendMap f n ++ f n

/-- Environment outcome of one staging attempt: the result of
`os.CreateTemp` (`none` is a creation error, otherwise the created file's
name), and whether the `WriteTo` and `Close` calls succeed. -/
structure UploadAttemptEnv where
  createTemp : Option (List Char)
  writeOk : Bool
  closeOk : Bool

/-- State threaded through `uploadScript`'s retry closure: the captured
`filePath` variable, plus ghost instrumentation recording every completed
local file write as a (name, content) pair. -/
structure UploadState where
  filePath : List Char
  localWrites : List (List Char × List Nat)
deriving DecidableEq

/-- One attempt of the `uploadScript` retry closure (provisioner.go lines
306-337): create a local temp file (a failure is retried), record its name
in `filePath`, write the whole payload to it, and close it.  The `comm`
parameter of the Go function is never used inside the closure, so the
attempt consumes only the local-filesystem oracle. -/
def uploadAttempt (payload : List Nat) (uenv : Nat → UploadAttemptEnv) (i : Nat)
    (s : UploadState) : UploadState × Option GoError :=
  match (uenv i).createTemp with
  | none => (s, some .createTempError)
  | some name =>
      let s1 : UploadState := { s with filePath := name }
      if (uenv i).writeOk then
        let s2 : UploadState := { s1 with localWrites := s1.localWrites ++ [(name, payload)] }
        if (uenv i).closeOk then (s2, none) else (s2, some .closeTempError)
      else (s1, some .writeTempError)

/-- `uploadScript` from provisioner.go: reject an empty payload before the
retry loop, otherwise run the attempt closure under the upload retry budget
and return the captured `filePath` together with the loop's error.  The
middle `Nat` is the ghost attempt count from the retry primitive. -/
def uploadScript (cfg : Config) (payload : List Nat) (uenv : Nat → UploadAttemptEnv) :
    UploadState × Nat × Option GoError :=
  if payload.length = 0 then (⟨[], []⟩, 0, some .emptyScriptContents)
  else retryRun (uploadAttempt payload uenv) cfg.uploadRetryAttempts ⟨[], []⟩

/-- Environment outcome of one execution attempt: either `RunWithUi`
returns an error (a transport failure; any bytes it managed to deliver are
still written to the buffers, and no exit status is observed), or the
remote process terminates with an exit code after writing the given bytes
to stdout and stderr. -/
inductive AttemptResult where
  | transportError (stdoutBytes stderrBytes : List Nat)
  | exited (code : Int) (stdoutBytes stderrBytes : List Nat)

/-- Bytes an attempt outcome writes to the stdout buffer. -/
def stdoutOf : AttemptResult → List Nat
  | .transportError out _ => out
  | .exited _ out _ => out

/-- Bytes an attempt outcome writes to the stderr buffer. -/
def stderrOf : AttemptResult → List Nat
  | .transportError _ errb => errb
  | .exited _ _ errb => errb

/-- State threaded through `runWindowsUpdate`'s retry closure: the two
output buffers and the `exitStatus` variable, all declared once before the
loop, plus ghost instrumentation listing every command sent over the remote
channel. -/
structure RunState where
  scriptOutput : List Nat
  scriptErrors : List Nat
  exitStatus : Int
  remoteCommands : List (List Char)
deriving DecidableEq

/-- The initial values of `runWindowsUpdate`'s loop state (`bytes.Buffer`
zero values and a zero `int`). -/
def initRunState : RunState := ⟨[], [], 0, []⟩

/-- The exit-code switch of `runWindowsUpdate`: 0, 101 and 2147942501 stop
the loop without error; anything else is the non-zero-exit error. -/
def classifyExit (code : Int) : Option GoError :=
  if code = 0 then none
  else if code = 101 then none
  else if code = 2147942501 then none
  else some (.nonZeroExit code)

/-- One attempt of the `runWindowsUpdate` retry closure (provisioner.go
lines 371-400): send the command over the remote channel with both buffers
attached; on a transport error return that error without touching
`exitStatus`; otherwise record the exit status and classify it. -/
def updateAttempt (command : List Char) (env : Nat → AttemptResult) (i : Nat)
    (s : RunState) : RunState × Option GoError :=
  match env i with
  | .transportError out errb =>
      ({ s with remoteCommands := s.remoteCommands ++ [command],
                scriptOutput := s.scriptOutput ++ out,
                scriptErrors := s.scriptErrors ++ errb }, some .runWithUiError)
  | .exited code out errb =>
      ({ s with remoteCommands := s.remoteCommands ++ [command],
                scriptOutput := s.scriptOutput ++ out,
                scriptErrors := s.scriptErrors ++ errb,
                exitStatus := code }, classifyExit code)

/-- Error component of an execution attempt, which depends only on the
environment outcome, never on the accumulated state. -/
def attemptErr (env : Nat → AttemptResult) (i : Nat) : Option GoError :=
  match env i with
  | .transportError _ _ => some .runWithUiError
  | .exited code _ _ => classifyExit code

/-- Exit status held by the `exitStatus` variable after `n` attempts: the
code of the most recent attempt that terminated, 0 (the `int` zero value)
if none has. -/
def lastExitObserved (env : Nat → AttemptResult) : Nat → Int
  | 0 => 0
  | n+1 =>
    match env n with
    | .transportError _ _ => lastExitObserved env n
    | .exited code _ _ => code

/-- `runWindowsUpdate` from provisioner.go: reject an empty script path
before the loop (returning exit value 1), otherwise build the command once
and run the attempt closure under the update retry budget; the returned
`Int` is the final value of `exitStatus`.  The first two components are
ghost: the loop state and the attempt count. -/
def runWindowsUpdate (cfg : Config) (scriptPath : List Char) (env : Nat → AttemptResult) :
    RunState × Nat × Int × Option GoError :=
  if scriptPath.length = 0 then (initRunState, 0, 1, some .emptyScriptPath)
  else
    let r := retryRun (updateAttempt (getWindowsUpdateCommand scriptPath) env)
      cfg.updateRetryAttempts initRunState
    (r.1, r.2.1, r.1.exitStatus, r.2.2)

/-- Observable outcome of one `Provision` call: the returned error, plus
ghost instrumentation; `execCalledWith` is the script path
`runWindowsUpdate` was invoked with (if it was), `remoteCommands` every
command sent over the communicator, `uploadAttempts` the staging attempt
count. -/
structure ProvisionOutcome where
  result : Option GoError
  execCalledWith : Option (List Char)
  remoteCommands : List (List Char)
  uploadAttempts : Nat
deriving DecidableEq

/-- `Provision` from provisioner.go: stage the payload, fail on a staging
error, fail with a dedicated error when the returned path is empty, run the
update script, propagate its error, and finally fail whenever the returned
status code is non-zero. -/
def Provision (cfg : Config) (payload : List Nat) (uenv : Nat → UploadAttemptEnv)
    (xenv : Nat → AttemptResult) : ProvisionOutcome :=
  let u := uploadScript cfg payload uenv
  match u.2.2 with
  | some e => ⟨some e, none, [], u.2.1⟩
  | none =>
    if u.1.filePath.length = 0 then ⟨some .emptyFilePath, none, [], u.2.1⟩
    else
      let r := runWindowsUpdate cfg u.1.filePath xenv
      match r.2.2.2 with
      | some e => ⟨some e, some u.1.filePath, r.1.remoteCommands, u.2.1⟩
      | none =>
        if r.2.2.1 ≠ 0 then
          ⟨some (.provisionNonZeroExit r.2.2.1), some u.1.filePath, r.1.remoteCommands, u.2.1⟩
        else ⟨none, some u.1.filePath, r.1.remoteCommands, u.2.1⟩

/-- Success classification of the exit-code table: the codes on which
`execute` stops without error. -/
def isSuccessCode (c : Int) : Prop := c = 0 ∨ c = 101 ∨ c = 2147942501

instance (c : Int) : Decidable (isSuccessCode c) := by
  unfold isSuccessCode; infer_instance

/-- A configuration with every field unset, as `config.Decode` leaves them
when the template specifies nothing. -/
def cfgZero : Config := {}

/-- The configuration after `Prepare`'s defaulting of `cfgZero`. -/
def cfgPrepared : Config := prepareDefaults cfgZero

/-- Restarting the attempt iteration after its first step lands one step
further into the same iteration. -/
theorem iterStep_shift {σ : Type} (step : Nat → σ → σ × Option GoError) (i : Nat) (s : σ) :
    ∀ n, iterStep step ((step i s).1) (i+1) n = iterStep step s i (n+1) := by
  intro n
  induction n with
  | zero => simp [iterStep]
  | succ n ih =>
      simp only [iterStep, ih]
      have h : i + 1 + n = i + (n + 1) := by omega
      rw [h]

/-- Unfolding one failing attempt of the retry loop. -/
theorem retryRunAux_step {σ : Type} (step : Nat → σ → σ × Option GoError)
    (fuel i : Nat) (last : Option GoError) (s s' : σ) (e : GoError)
    (h : step i s = (s', some e)) :
    retryRunAux step (fuel+1) i last s = retryRunAux step fuel (i+1) (some e) s' := by
  simp only [retryRunAux, h]

/-- If the attempts before attempt `k` all fail and attempt `k` returns no
error, the retry loop stops right after attempt `k`, returning its state. -/
theorem retryRunAux_success {σ : Type} (step : Nat → σ → σ × Option GoError) :
    ∀ (k fuel i : Nat) (last : Option GoError) (s : σ), k < fuel →
    (∀ j, j < k → ((step (i+j) (iterStep step s i j)).2).isSome = true) →
    ((step (i+k) (iterStep step s i k)).2) = none →
    retryRunAux step fuel i last s = ((step (i+k) (iterStep step s i k)).1, i+k+1, none) := by
  intro k
  induction k with
  | zero =>
      intro fuel i last s hk _ hsucc
      obtain ⟨f, rfl⟩ : ∃ f, fuel = f + 1 := ⟨fuel - 1, by omega⟩
      simp only [iterStep, Nat.add_zero] at hsucc ⊢
      simp only [retryRunAux]
      cases h : step i s with
      | mk s' e =>
          rw [h] at hsucc
          simp only at hsucc
          subst hsucc
          simp [h]
  | succ k ih =>
      intro fuel i last s hk hfail hsucc
      obtain ⟨f, rfl⟩ : ∃ f, fuel = f + 1 := ⟨fuel - 1, by omega⟩
      have h0 : ((step (i+0) (iterStep step s i 0)).2).isSome = true := hfail 0 (by omega)
      simp only [iterStep, Nat.add_zero] at h0
      cases h : step i s with
      | mk s' e =>
          rw [h] at h0
          cases e with
          | none => simp at h0
          | some err =>
              have hshift : ∀ n, iterStep step s' (i+1) n = iterStep step s i (n+1) := by
                intro n
                have := iterStep_shift step i s n
                rw [h] at this
                exact this
              have hfail' : ∀ j, j < k →
                  ((step ((i+1)+j) (iterStep step s' (i+1) j)).2).isSome = true := by
                intro j hj
                rw [hshift j]
                have e1 : i + 1 + j = i + (j + 1) := by omega
                rw [e1]
                exact hfail (j+1) (by omega)
              have hsucc' : (step ((i+1)+k) (iterStep step s' (i+1) k)).2 = none := by
                rw [hshift k]
                have e1 : i + 1 + k = i + (k + 1) := by omega
                rw [e1]
                exact hsucc
              have hres := ih f (i+1) (some err) s' (by omega) hfail' hsucc'
              simp only [retryRunAux, h]
              rw [hres, hshift k]
              have e1 : i + 1 + k = i + (k + 1) := by omega
              rw [e1]

/-- If every attempt in the budget fails, the retry loop runs the whole
budget and returns the last attempt's error wrapped. -/
theorem retryRunAux_exhaust {σ : Type} (step : Nat → σ → σ × Option GoError) :
    ∀ (fuel i : Nat) (last : Option GoError) (s : σ),
    (∀ j, j < fuel + 1 → ((step (i+j) (iterStep step s i j)).2).isSome = true) →
    retryRunAux step (fuel+1) i last s =
      (iterStep step s i (fuel+1), i+(fuel+1),
       some (mkRetryExhausted ((step (i+fuel) (iterStep step s i fuel)).2))) := by
  intro fuel
  induction fuel with
  | zero =>
      intro i last s hfail
      have h0 : ((step (i+0) (iterStep step s i 0)).2).isSome = true := hfail 0 (by omega)
      simp only [iterStep, Nat.add_zero] at h0 ⊢
      cases h : step i s with
      | mk s' e =>
          rw [h] at h0
          cases e with
          | none => simp at h0
          | some err => simp [retryRunAux, h]
  | succ f ih =>
      intro i last s hfail
      have h0 : ((step (i+0) (iterStep step s i 0)).2).isSome = true := hfail 0 (by omega)
      simp only [iterStep, Nat.add_zero] at h0
      cases h : step i s with
      | mk s' e =>
          rw [h] at h0
          cases e with
          | none => simp at h0
          | some err =>
              have hshift : ∀ n, iterStep step s' (i+1) n = iterStep step s i (n+1) := by
                intro n
                have := iterStep_shift step i s n
                rw [h] at this
                exact this
              have hfail' : ∀ j, j < f + 1 →
                  ((step ((i+1)+j) (iterStep step s' (i+1) j)).2).isSome = true := by
                intro j hj
                rw [hshift j]
                have e1 : i + 1 + j = i + (j + 1) := by omega
                rw [e1]
                exact hfail (j+1) (by omega)
              have hres := ih (i+1) (some err) s' hfail'
              rw [retryRunAux_step step (f+1) i last s s' err h]
              rw [hres, hshift (f+1), hshift f]
              have e1 : i + 1 + (f + 1) = i + (f + 1 + 1) := by omega
              have e2 : i + 1 + f = i + (f + 1) := by omega
              rw [e1, e2]

/-- The error an execution attempt reports does not depend on the
accumulated loop state. -/
theorem updateAttempt_snd (cmd : List Char) (env : Nat → AttemptResult) (i : Nat)
    (s : RunState) : (updateAttempt cmd env i s).2 = attemptErr env i := by
  unfold updateAttempt attemptErr
  cases env i <;> rfl

/-- Running `n` execution attempts from the initial loop state accumulates
both output streams in order, keeps the last observed exit status, and
sends the same command each time. -/
theorem iterStep_updateAttempt (cmd : List Char) (env : Nat → AttemptResult) :
    ∀ n, iterStep (updateAttempt cmd env) initRunState 0 n =
      ⟨appendMap (fun i => stdoutOf (env i)) n, appendMap (fun i => stderrOf (env i)) n,
       lastExitObserved env n, List.replicate n cmd⟩ := by
  intro n
  induction n with
  | zero => rfl
  | succ n ih =>
      simp only [iterStep, Nat.zero_add, ih]
      cases h : env n <;>
        simp [updateAttempt, lastExitObserved, appendMap, stdoutOf, stderrOf, h,
          List.replicate_succ']

/-- Characterisation of `runWindowsUpdate` when some attempt in the budget
is the first to stop the loop. -/
theorem runWindowsUpdate_success (cfg : Config) (fp : List Char) (hfp : fp ≠ [])
    (env : Nat → AttemptResult) (k : Nat) (hk : k < cfg.updateRetryAttempts)
    (hfail : ∀ j, j < k → (attemptErr env j).isSome = true)
    (hsucc : attemptErr env k = none) :
    runWindowsUpdate cfg fp env =
      (⟨appendMap (fun i => stdoutOf (env i)) (k+1), appendMap (fun i => stderrOf (env i)) (k+1),
        lastExitObserved env (k+1), List.replicate (k+1) (getWindowsUpdateCommand fp)⟩,
       k+1, lastExitObserved env (k+1), none) := by
  have hlen : ¬ fp.length = 0 := by
    simpa [List.length_eq_zero] using hfp
  unfold runWindowsUpdate retryRun
  rw [if_neg hlen]
  have hrun := retryRunAux_success (updateAttempt (getWindowsUpdateCommand fp) env)
    k cfg.updateRetryAttempts 0 none initRunState hk
    (by intro j hj
        rw [updateAttempt_snd]
        simpa using hfail (0 + j) (by omega))
    (by rw [updateAttempt_snd]
        simpa using hsucc)
  rw [hrun]
  have hstate : (updateAttempt (getWindowsUpdateCommand fp) env (0 + k)
      (iterStep (updateAttempt (getWindowsUpdateCommand fp) env) initRunState 0 k)).1 =
      iterStep (updateAttempt (getWindowsUpdateCommand fp) env) initRunState 0 (k+1) := rfl
  rw [hstate, iterStep_updateAttempt]
  simp

/-- Characterisation of `runWindowsUpdate` when every attempt in a positive
budget fails: the budget is used up and the last attempt's error is
reported wrapped. -/
theorem runWindowsUpdate_exhaust (cfg : Config) (fp : List Char) (hfp : fp ≠ [])
    (env : Nat → AttemptResult) (htries : 1 ≤ cfg.updateRetryAttempts)
    (hfail : ∀ j, j < cfg.updateRetryAttempts → (attemptErr env j).isSome = true) :
    runWindowsUpdate cfg fp env =
      (⟨appendMap (fun i => stdoutOf (env i)) cfg.updateRetryAttempts,
        appendMap (fun i => stderrOf (env i)) cfg.updateRetryAttempts,
        lastExitObserved env cfg.updateRetryAttempts,
        List.replicate cfg.updateRetryAttempts (getWindowsUpdateCommand fp)⟩,
       cfg.updateRetryAttempts, lastExitObserved env cfg.updateRetryAttempts,
       some (mkRetryExhausted (attemptErr env (cfg.updateRetryAttempts - 1)))) := by
  have hlen : ¬ fp.length = 0 := by
    simpa [List.length_eq_zero] using hfp
  obtain ⟨f, hf⟩ : ∃ f, cfg.updateRetryAttempts = f + 1 :=
    ⟨cfg.updateRetryAttempts - 1, by omega⟩
  unfold runWindowsUpdate retryRun
  rw [if_neg hlen, hf]
  have hrun := retryRunAux_exhaust (updateAttempt (getWindowsUpdateCommand fp) env)
    f 0 none initRunState
    (by intro j hj
        rw [updateAttempt_snd]
        simpa using hfail (0 + j) (by omega))
  rw [hrun, iterStep_updateAttempt]
  rw [updateAttempt_snd]
  simp [hf]

/-- The exit-code switch stops the loop exactly on the whitelisted codes. -/
theorem classifyExit_eq_none_iff (c : Int) : classifyExit c = none ↔ isSuccessCode c := by
  unfold classifyExit isSuccessCode
  by_cases h0 : c = 0 <;> by_cases h1 : c = 101 <;> by_cases h2 : c = 2147942501 <;>
    simp [h0, h1, h2]

/-- On a non-whitelisted code the switch produces the non-zero-exit error. -/
theorem classifyExit_fail (c : Int) (h : ¬ isSuccessCode c) :
    classifyExit c = some (.nonZeroExit c) := by
  unfold classifyExit
  unfold isSuccessCode at h
  push_neg at h
  simp [h.1, h.2.1, h.2.2]

/-- An option that is not `none` is `isSome`. -/
theorem isSome_of_ne_none {o : Option GoError} (h : ¬ o = none) : o.isSome = true := by
  cases o with
  | none => exact absurd rfl h
  | some e => rfl

/-- C2: in `runWindowsUpdate`, an attempt observing an exit code in
{0, 101, 2147942501} stops the retry loop at once with no error and no
further attempt (the ghost attempt count is exactly `k+1` when attempt `k`
is the first to see such a code), while a run whose attempts all observe
codes outside that set uses the whole `maxAttempts` budget and then reports
failure carrying the last observed exit code. -/
theorem execute_retry_classification (cfg : Config) (fp : List Char) (hfp : fp ≠ [])
    (codes : Nat → Int) (outs errs : Nat → List Nat) :
    (∀ k, k < cfg.updateRetryAttempts → isSuccessCode (codes k) →
      (∀ j, j < k → ¬ isSuccessCode (codes j)) →
      (runWindowsUpdate cfg fp (fun i => .exited (codes i) (outs i) (errs i))).2.1 = k + 1 ∧
      (runWindowsUpdate cfg fp (fun i => .exited (codes i) (outs i) (errs i))).2.2.1 = codes k ∧
      (runWindowsUpdate cfg fp (fun i => .exited (codes i) (outs i) (errs i))).2.2.2 = none) ∧
    ((∀ j, j < cfg.updateRetryAttempts → ¬ isSuccessCode (codes j)) →
      1 ≤ cfg.updateRetryAttempts →
      (runWindowsUpdate cfg fp (fun i => .exited (codes i) (outs i) (errs i))).2.1 =
        cfg.updateRetryAttempts ∧
      (runWindowsUpdate cfg fp (fun i => .exited (codes i) (outs i) (errs i))).2.2.1 =
        codes (cfg.updateRetryAttempts - 1) ∧
      (runWindowsUpdate cfg fp (fun i => .exited (codes i) (outs i) (errs i))).2.2.2 =
        some (.retryExhausted (.nonZeroExit (codes (cfg.updateRetryAttempts - 1))))) := by
  constructor
  · intro k hk hks hprev
    have hrun := runWindowsUpdate_success cfg fp hfp
      (fun i => .exited (codes i) (outs i) (errs i)) k hk
      (by intro j hj
          have : attemptErr (fun i => .exited (codes i) (outs i) (errs i)) j =
              classifyExit (codes j) := rfl
          rw [this, classifyExit_fail (codes j) (hprev j hj)]
          rfl)
      (by have : attemptErr (fun i => .exited (codes i) (outs i) (errs i)) k =
              classifyExit (codes k) := rfl
          rw [this, classifyExit_eq_none_iff]
          exact hks)
    rw [hrun]
    exact ⟨rfl, rfl, rfl⟩
  · intro hall htries
    have hrun := runWindowsUpdate_exhaust cfg fp hfp
      (fun i => .exited (codes i) (outs i) (errs i)) htries
      (by intro j hj
          have : attemptErr (fun i => .exited (codes i) (outs i) (errs i)) j =
              classifyExit (codes j) := rfl
          rw [this, classifyExit_fail (codes j) (hall j hj)]
          rfl)
    rw [hrun]
    obtain ⟨f, hf⟩ : ∃ f, cfg.updateRetryAttempts = f + 1 :=
      ⟨cfg.updateRetryAttempts - 1, by omega⟩
    refine ⟨rfl, ?_, ?_⟩
    · simp only [hf]
      rfl
    · have he : attemptErr (fun i => .exited (codes i) (outs i) (errs i))
          (cfg.updateRetryAttempts - 1) = classifyExit (codes (cfg.updateRetryAttempts - 1)) :=
        rfl
      simp only [he, classifyExit_fail (codes (cfg.updateRetryAttempts - 1))
        (hall (cfg.updateRetryAttempts - 1) (by omega))]
      rfl

/-- C2 witness: with a budget of three attempts and codes 5, 101, ..., the
second attempt stops the loop with exit 101 and no error. -/
theorem execute_retry_classification_witness :
    ((['T'] : List Char) ≠ [] ∧ 1 < cfgPrepared.updateRetryAttempts ∧
      isSuccessCode 101 ∧ (∀ j, j < 1 → ¬ isSuccessCode (5 : Int))) ∧
    (runWindowsUpdate cfgPrepared ['T']
      (fun i => .exited (if i = 0 then 5 else 101) [] [])).2.1 = 2 ∧
    (runWindowsUpdate cfgPrepared ['T']
      (fun i => .exited (if i = 0 then 5 else 101) [] [])).2.2.1 = 101 ∧
    (runWindowsUpdate cfgPrepared ['T']
      (fun i => .exited (if i = 0 then 5 else 101) [] [])).2.2.2 = none := by
  refine ⟨⟨by decide, by decide, by decide, by decide⟩, ?_⟩
  have h := (execute_retry_classification cfgPrepared ['T'] (by decide)
    (fun i => if i = 0 then 5 else 101) (fun _ => []) (fun _ => [])).1 1
    (by decide) (by decide) (by intro j hj; interval_cases j; decide)
  simpa using h

/-- C4: for runs in which every attempt terminates with an exit code, over
a non-empty path and a positive budget, `runWindowsUpdate` returns the exit
code observed by the last attempt it issued, and its error is `none`
exactly when that final code classifies as success. -/
theorem execute_postcondition (cfg : Config) (fp : List Char) (hfp : fp ≠ [])
    (htries : 1 ≤ cfg.updateRetryAttempts) (codes : Nat → Int) (outs errs : Nat → List Nat) :
    1 ≤ (runWindowsUpdate cfg fp (fun i => .exited (codes i) (outs i) (errs i))).2.1 ∧
    (runWindowsUpdate cfg fp (fun i => .exited (codes i) (outs i) (errs i))).2.2.1 =
      codes ((runWindowsUpdate cfg fp (fun i => .exited (codes i) (outs i) (errs i))).2.1 - 1) ∧
    ((runWindowsUpdate cfg fp (fun i => .exited (codes i) (outs i) (errs i))).2.2.2 = none ↔
      isSuccessCode
        (codes ((runWindowsUpdate cfg fp
          (fun i => .exited (codes i) (outs i) (errs i))).2.1 - 1))) := by
  by_cases hex : ∃ n, n < cfg.updateRetryAttempts ∧ isSuccessCode (codes n)
  · have hk := Nat.find_spec hex
    have hrun := runWindowsUpdate_success cfg fp hfp
      (fun i => .exited (codes i) (outs i) (errs i)) (Nat.find hex) hk.1
      (by intro j hj
          have hmin := Nat.find_min hex hj
          have : attemptErr (fun i => .exited (codes i) (outs i) (errs i)) j =
              classifyExit (codes j) := rfl
          rw [this, classifyExit_fail (codes j) (by
            intro hs
            exact hmin ⟨by omega, hs⟩)]
          rfl)
      (by have : attemptErr (fun i => .exited (codes i) (outs i) (errs i)) (Nat.find hex) =
              classifyExit (codes (Nat.find hex)) := rfl
          rw [this, classifyExit_eq_none_iff]
          exact hk.2)
    rw [hrun]
    refine ⟨?_, rfl, ?_⟩
    · show 1 ≤ Nat.find hex + 1
      omega
    have hlast : lastExitObserved (fun i => .exited (codes i) (outs i) (errs i))
        (Nat.find hex + 1) = codes (Nat.find hex) := rfl
    simp [hlast]
    exact hk.2
  · push_neg at hex
    have hrun := runWindowsUpdate_exhaust cfg fp hfp
      (fun i => .exited (codes i) (outs i) (errs i)) htries
      (by intro j hj
          have : attemptErr (fun i => .exited (codes i) (outs i) (errs i)) j =
              classifyExit (codes j) := rfl
          rw [this, classifyExit_fail (codes j) (hex j hj)]
          rfl)
    rw [hrun]
    obtain ⟨f, hf⟩ : ∃ f, cfg.updateRetryAttempts = f + 1 :=
      ⟨cfg.updateRetryAttempts - 1, by omega⟩
    refine ⟨?_, ?_, ?_⟩
    · show 1 ≤ cfg.updateRetryAttempts
      omega
    · simp only [hf]
      rfl
    · constructor
      · intro hnone
        have : attemptErr (fun i => .exited (codes i) (outs i) (errs i))
            (cfg.updateRetryAttempts - 1) =
            classifyExit (codes (cfg.updateRetryAttempts - 1)) := rfl
        rw [this, classifyExit_fail (codes (cfg.updateRetryAttempts - 1))
          (hex (cfg.updateRetryAttempts - 1) (by omega))] at hnone
        simp [mkRetryExhausted] at hnone
      · intro hs
        have hlast : lastExitObserved (fun i => .exited (codes i) (outs i) (errs i))
            (f + 1) = codes f := rfl
        rw [hf] at hs
        simp only [hf, hlast, Nat.add_sub_cancel] at hs
        exact absurd hs (hex f (by omega))

/-- C4 witness: with a budget of five attempts, all of them exiting 7, the
run uses all five attempts, returns 7, and reports a failure. -/
theorem execute_postcondition_witness :
    ((['T'] : List Char) ≠ [] ∧ 1 ≤ cfgPrepared.updateRetryAttempts) ∧
    1 ≤ (runWindowsUpdate cfgPrepared ['T'] (fun _ => .exited 7 [] [])).2.1 ∧
    (runWindowsUpdate cfgPrepared ['T'] (fun _ => .exited 7 [] [])).2.2.1 = 7 ∧
    ((runWindowsUpdate cfgPrepared ['T'] (fun _ => .exited 7 [] [])).2.2.2 = none ↔
      isSuccessCode 7) := by
  refine ⟨⟨by decide, by decide⟩, ?_⟩
  have h := execute_postcondition cfgPrepared ['T'] (by decide) (by decide)
    (fun _ => 7) (fun _ => []) (fun _ => [])
  simpa using h

/-- C10: within one `runWindowsUpdate` call the attempts share the two
buffers allocated before the loop: after the run, the stdout buffer is the
in-order concatenation of the stdout bytes of every attempt issued (so the
output of failed attempts is retained and precedes the final attempt's
output), the stderr buffer is the same concatenation of the stderr bytes,
and the two streams are never mixed into one buffer. -/
theorem execute_buffer_accumulation (cfg : Config) (fp : List Char) (hfp : fp ≠ [])
    (env : Nat → AttemptResult) :
    (runWindowsUpdate cfg fp env).1.scriptOutput =
      appendMap (fun i => stdoutOf (env i)) (runWindowsUpdate cfg fp env).2.1 ∧
    (runWindowsUpdate cfg fp env).1.scriptErrors =
      appendMap (fun i => stderrOf (env i)) (runWindowsUpdate cfg fp env).2.1 := by
  have hlen : ¬ fp.length = 0 := by
    simpa [List.length_eq_zero] using hfp
  by_cases h0 : cfg.updateRetryAttempts = 0
  · simp [runWindowsUpdate, hlen, retryRun, h0, retryRunAux, initRunState, appendMap]
  · by_cases hex : ∃ n, n < cfg.updateRetryAttempts ∧ attemptErr env n = none
    · have hk := Nat.find_spec hex
      have hrun := runWindowsUpdate_success cfg fp hfp env (Nat.find hex) hk.1
        (by intro j hj
            have hmin := Nat.find_min hex hj
            refine isSome_of_ne_none ?_
            intro hn
            exact hmin ⟨by omega, hn⟩)
        hk.2
      rw [hrun]
      exact ⟨rfl, rfl⟩
    · push_neg at hex
      have hrun := runWindowsUpdate_exhaust cfg fp hfp env (by omega)
        (by intro j hj
            exact isSome_of_ne_none (hex j hj))
      rw [hrun]
      exact ⟨rfl, rfl⟩

/-- C10 witness: a failed attempt writing 1/2 followed by a succeeding
attempt writing 3/4 leaves stdout `[1, 3]` and stderr `[2, 4]`. -/
theorem execute_buffer_accumulation_witness :
    ((['T'] : List Char) ≠ []) ∧
    (runWindowsUpdate cfgPrepared ['T']
      (fun i => if i = 0 then .exited 5 [1] [2] else .exited 0 [3] [4])).1.scriptOutput =
      appendMap (fun i => stdoutOf
        (if i = 0 then .exited 5 [1] [2] else .exited 0 [3] [4]))
        (runWindowsUpdate cfgPrepared ['T']
          (fun i => if i = 0 then .exited 5 [1] [2] else .exited 0 [3] [4])).2.1 := by
  refine ⟨by decide, ?_⟩
  exact (execute_buffer_accumulation cfgPrepared ['T'] (by decide)
    (fun i => if i = 0 then .exited 5 [1] [2] else .exited 0 [3] [4])).1

/-- Stopping the retry loop on the first non-error attempt. -/
theorem retryRunAux_stop {σ : Type} (step : Nat → σ → σ × Option GoError)
    (fuel i : Nat) (last : Option GoError) (s s' : σ) (h : step i s = (s', none)) :
    retryRunAux step (fuel+1) i last s = (s', i+1, none) := by
  simp only [retryRunAux, h]

/-- A state property preserved by every attempt holds for the state the
retry loop ends in. -/
theorem retryRunAux_invariant {σ : Type} (step : Nat → σ → σ × Option GoError)
    (P : σ → Prop) (hstep : ∀ i s, P s → P (step i s).1) :
    ∀ (fuel i : Nat) (last : Option GoError) (s : σ), P s →
    P (retryRunAux step fuel i last s).1 := by
  intro fuel
  induction fuel with
  | zero => intro i last s hs; simpa [retryRunAux] using hs
  | succ fuel ih =>
      intro i last s hs
      cases h : step i s with
      | mk s' e =>
          cases e with
          | none =>
              rw [retryRunAux_stop step fuel i last s s' h]
              have := hstep i s hs
              rw [h] at this
              exact this
          | some err =>
              rw [retryRunAux_step step fuel i last s s' err h]
              refine ih (i+1) (some err) s' ?_
              have := hstep i s hs
              rw [h] at this
              exact this

/-- The path and the error/attempt-count outcome of the staging retry loop
do not depend on the payload bytes (for what the loop does, only the
environment outcomes matter; the payload is only written into files). -/
theorem uploadAux_payload_indep (p q : List Nat) (uenv : Nat → UploadAttemptEnv) :
    ∀ (fuel i : Nat) (last : Option GoError) (s t : UploadState),
    s.filePath = t.filePath →
    (retryRunAux (uploadAttempt p uenv) fuel i last s).1.filePath
      = (retryRunAux (uploadAttempt q uenv) fuel i last t).1.filePath ∧
    (retryRunAux (uploadAttempt p uenv) fuel i last s).2
      = (retryRunAux (uploadAttempt q uenv) fuel i last t).2 := by
  intro fuel
  induction fuel with
  | zero => intro i last s t h; simp [retryRunAux, h]
  | succ fuel ih =>
      intro i last s t h
      cases hc : (uenv i).createTemp with
      | none =>
          have hp : uploadAttempt p uenv i s = (s, some .createTempError) := by
            simp [uploadAttempt, hc]
          have hq : uploadAttempt q uenv i t = (t, some .createTempError) := by
            simp [uploadAttempt, hc]
          rw [retryRunAux_step _ fuel i last s s _ hp,
            retryRunAux_step _ fuel i last t t _ hq]
          exact ih (i+1) (some .createTempError) s t h
      | some name =>
          cases hw : (uenv i).writeOk with
          | false =>
              have hp : uploadAttempt p uenv i s =
                  ({ s with filePath := name }, some .writeTempError) := by
                simp [uploadAttempt, hc, hw]
              have hq : uploadAttempt q uenv i t =
                  ({ t with filePath := name }, some .writeTempError) := by
                simp [uploadAttempt, hc, hw]
              rw [retryRunAux_step _ fuel i last s _ _ hp,
                retryRunAux_step _ fuel i last t _ _ hq]
              exact ih (i+1) (some .writeTempError) _ _ rfl
          | true =>
              cases hcl : (uenv i).closeOk with
              | false =>
                  have hp : uploadAttempt p uenv i s =
                      (⟨name, s.localWrites ++ [(name, p)]⟩, some .closeTempError) := by
                    simp [uploadAttempt, hc, hw, hcl]
                  have hq : uploadAttempt q uenv i t =
                      (⟨name, t.localWrites ++ [(name, q)]⟩, some .closeTempError) := by
                    simp [uploadAttempt, hc, hw, hcl]
                  rw [retryRunAux_step _ fuel i last s _ _ hp,
                    retryRunAux_step _ fuel i last t _ _ hq]
                  exact ih (i+1) (some .closeTempError) _ _ rfl
              | true =>
                  have hp : uploadAttempt p uenv i s =
                      (⟨name, s.localWrites ++ [(name, p)]⟩, none) := by
                    simp [uploadAttempt, hc, hw, hcl]
                  have hq : uploadAttempt q uenv i t =
                      (⟨name, t.localWrites ++ [(name, q)]⟩, none) := by
                    simp [uploadAttempt, hc, hw, hcl]
                  rw [retryRunAux_stop _ fuel i last s _ hp,
                    retryRunAux_stop _ fuel i last t _ hq]
                  exact ⟨rfl, rfl⟩

/-- Every attempt keeps the local-writes ledger made of payload writes to
names produced by `os.CreateTemp`. -/
theorem uploadAttempt_writes_invariant (p : List Nat) (uenv : Nat → UploadAttemptEnv)
    (i : Nat) (s : UploadState)
    (hs : ∀ w ∈ s.localWrites, w.2 = p ∧ ∃ j, (uenv j).createTemp = some w.1) :
    ∀ w ∈ (uploadAttempt p uenv i s).1.localWrites,
      w.2 = p ∧ ∃ j, (uenv j).createTemp = some w.1 := by
  intro w hw
  cases hc : (uenv i).createTemp with
  | none =>
      simp only [uploadAttempt, hc] at hw
      exact hs w hw
  | some name =>
      cases hwr : (uenv i).writeOk with
      | false =>
          simp [uploadAttempt, hc, hwr] at hw
          exact hs w hw
      | true =>
          cases hcl : (uenv i).closeOk with
          | false =>
              simp [uploadAttempt, hc, hwr, hcl] at hw
              rcases hw with h | h
              · exact hs w h
              · subst h
                exact ⟨rfl, ⟨i, hc⟩⟩
          | true =>
              simp [uploadAttempt, hc, hwr, hcl] at hw
              rcases hw with h | h
              · exact hs w h
              · subst h
                exact ⟨rfl, ⟨i, hc⟩⟩

/-- Every attempt of the execution loop appends only the command it was
built with to the ghost list of sent commands. -/
theorem updateAttempt_commands_invariant (cmd : List Char) (env : Nat → AttemptResult)
    (i : Nat) (s : RunState) (hs : ∀ c ∈ s.remoteCommands, c = cmd) :
    ∀ c ∈ (updateAttempt cmd env i s).1.remoteCommands, c = cmd := by
  intro c hc
  cases h : env i with
  | transportError out errb =>
      simp only [updateAttempt, h] at hc
      rcases List.mem_append.mp hc with h' | h'
      · exact hs c h'
      · simpa using h'
  | exited code out errb =>
      simp only [updateAttempt, h] at hc
      rcases List.mem_append.mp hc with h' | h'
      · exact hs c h'
      · simpa using h'

/-- `Provision` when staging reports an error: the error is propagated, the
executor is never invoked and no remote command is sent. -/
theorem Provision_upload_err (cfg : Config) (payload : List Nat)
    (uenv : Nat → UploadAttemptEnv) (xenv : Nat → AttemptResult) (e : GoError)
    (h : (uploadScript cfg payload uenv).2.2 = some e) :
    Provision cfg payload uenv xenv =
      ⟨some e, none, [], (uploadScript cfg payload uenv).2.1⟩ := by
  simp only [Provision, h]

/-- `Provision` when staging reports no error but an empty path: the
dedicated empty-path error is returned before any execution. -/
theorem Provision_empty_path (cfg : Config) (payload : List Nat)
    (uenv : Nat → UploadAttemptEnv) (xenv : Nat → AttemptResult)
    (hnone : (uploadScript cfg payload uenv).2.2 = none)
    (hlen : (uploadScript cfg payload uenv).1.filePath.length = 0) :
    Provision cfg payload uenv xenv =
      ⟨some .emptyFilePath, none, [], (uploadScript cfg payload uenv).2.1⟩ := by
  simp [Provision, hnone, hlen]

/-- `Provision` when staging succeeds with a non-empty path and the
executor reports an error: that error is propagated. -/
theorem Provision_exec_err (cfg : Config) (payload : List Nat)
    (uenv : Nat → UploadAttemptEnv) (xenv : Nat → AttemptResult) (e : GoError)
    (hnone : (uploadScript cfg payload uenv).2.2 = none)
    (hlen : ¬ (uploadScript cfg payload uenv).1.filePath.length = 0)
    (he : (runWindowsUpdate cfg (uploadScript cfg payload uenv).1.filePath xenv).2.2.2 =
      some e) :
    Provision cfg payload uenv xenv =
      ⟨some e, some (uploadScript cfg payload uenv).1.filePath,
       (runWindowsUpdate cfg (uploadScript cfg payload uenv).1.filePath xenv).1.remoteCommands,
       (uploadScript cfg payload uenv).2.1⟩ := by
  simp [Provision, hnone, hlen, he]

/-- `Provision` when staging succeeds and the executor reports no error but
a non-zero status code: the non-zero-status error is returned. -/
theorem Provision_exec_nonzero (cfg : Config) (payload : List Nat)
    (uenv : Nat → UploadAttemptEnv) (xenv : Nat → AttemptResult)
    (hnone : (uploadScript cfg payload uenv).2.2 = none)
    (hlen : ¬ (uploadScript cfg payload uenv).1.filePath.length = 0)
    (he : (runWindowsUpdate cfg (uploadScript cfg payload uenv).1.filePath xenv).2.2.2 = none)
    (hc : (runWindowsUpdate cfg (uploadScript cfg payload uenv).1.filePath xenv).2.2.1 ≠ 0) :
    Provision cfg payload uenv xenv =
      ⟨some (.provisionNonZeroExit
        (runWindowsUpdate cfg (uploadScript cfg payload uenv).1.filePath xenv).2.2.1),
       some (uploadScript cfg payload uenv).1.filePath,
       (runWindowsUpdate cfg (uploadScript cfg payload uenv).1.filePath xenv).1.remoteCommands,
       (uploadScript cfg payload uenv).2.1⟩ := by
  simp [Provision, hnone, hlen, he, hc]

/-- `Provision` when staging succeeds and the executor returns status 0
without error: the call succeeds. -/
theorem Provision_exec_zero (cfg : Config) (payload : List Nat)
    (uenv : Nat → UploadAttemptEnv) (xenv : Nat → AttemptResult)
    (hnone : (uploadScript cfg payload uenv).2.2 = none)
    (hlen : ¬ (uploadScript cfg payload uenv).1.filePath.length = 0)
    (he : (runWindowsUpdate cfg (uploadScript cfg payload uenv).1.filePath xenv).2.2.2 = none)
    (hc : (runWindowsUpdate cfg (uploadScript cfg payload uenv).1.filePath xenv).2.2.1 = 0) :
    Provision cfg payload uenv xenv =
      ⟨none, some (uploadScript cfg payload uenv).1.filePath,
       (runWindowsUpdate cfg (uploadScript cfg payload uenv).1.filePath xenv).1.remoteCommands,
       (uploadScript cfg payload uenv).2.1⟩ := by
  simp [Provision, hnone, hlen, he, hc]

/-- A list whose length is non-zero is not the empty list. -/
theorem ne_nil_of_length_ne_zero {l : List Char} (h : ¬ l.length = 0) : l ≠ [] := by
  intro h'
  exact h (by simp [h'])

/-- C5: an empty embedded payload makes `uploadScript` fail at once with
the configuration error checked before the retry loop: zero staging
attempts run, and the whole workflow returns that error having invoked no
execution and sent no remote command. -/
theorem stage_empty_payload (cfg : Config) (uenv : Nat → UploadAttemptEnv)
    (xenv : Nat → AttemptResult) :
    uploadScript cfg [] uenv = (⟨[], []⟩, 0, some .emptyScriptContents) ∧
    Provision cfg [] uenv xenv = ⟨some .emptyScriptContents, none, [], 0⟩ :=
  ⟨rfl, rfl⟩

/-- C6: `Provision` never invokes `runWindowsUpdate` with an empty
location: whenever the executor is invoked the path is non-empty, and a run
in which staging returns no error yet an empty path fails with the
dedicated empty-location error — a `GoError` distinct from the staging
errors — without invoking the executor. -/
theorem provision_location_invariant (cfg : Config) (payload : List Nat)
    (uenv : Nat → UploadAttemptEnv) (xenv : Nat → AttemptResult) :
    (∀ fp, (Provision cfg payload uenv xenv).execCalledWith = some fp → fp ≠ []) ∧
    ((uploadScript cfg payload uenv).2.2 = none →
      (uploadScript cfg payload uenv).1.filePath = [] →
      (Provision cfg payload uenv xenv).result = some .emptyFilePath ∧
      (Provision cfg payload uenv xenv).execCalledWith = none) ∧
    (∀ e, GoError.emptyFilePath ≠ GoError.retryExhausted e) ∧
    GoError.emptyFilePath ≠ GoError.retryExhaustedNone ∧
    GoError.emptyFilePath ≠ GoError.createTempError := by
  refine ⟨?_, ?_, ?_, by decide, by decide⟩
  · intro fp hfp
    cases hu : (uploadScript cfg payload uenv).2.2 with
    | some e =>
        rw [Provision_upload_err cfg payload uenv xenv e hu] at hfp
        simp at hfp
    | none =>
        by_cases hl : (uploadScript cfg payload uenv).1.filePath.length = 0
        · rw [Provision_empty_path cfg payload uenv xenv hu hl] at hfp
          simp at hfp
        · cases hr : (runWindowsUpdate cfg
              (uploadScript cfg payload uenv).1.filePath xenv).2.2.2 with
          | some e =>
              rw [Provision_exec_err cfg payload uenv xenv e hu hl hr] at hfp
              simp only [Option.some.injEq] at hfp
              rw [← hfp]
              exact ne_nil_of_length_ne_zero hl
          | none =>
              by_cases hc : (runWindowsUpdate cfg
                  (uploadScript cfg payload uenv).1.filePath xenv).2.2.1 = 0
              · rw [Provision_exec_zero cfg payload uenv xenv hu hl hr hc] at hfp
                simp only [Option.some.injEq] at hfp
                rw [← hfp]
                exact ne_nil_of_length_ne_zero hl
              · rw [Provision_exec_nonzero cfg payload uenv xenv hu hl hr hc] at hfp
                simp only [Option.some.injEq] at hfp
                rw [← hfp]
                exact ne_nil_of_length_ne_zero hl
  · intro hnone hempty
    have hl : (uploadScript cfg payload uenv).1.filePath.length = 0 := by
      simp [hempty]
    rw [Provision_empty_path cfg payload uenv xenv hnone hl]
    exact ⟨rfl, rfl⟩
  · intro e h
    exact GoError.noConfusion h

/-- C6 witness: staging that returns no error but an empty file name makes
the workflow fail with the dedicated empty-location error before any
execution. -/
theorem provision_location_invariant_witness :
    ((uploadScript cfgPrepared [80] (fun _ => ⟨some [], true, true⟩)).2.2 = none ∧
      (uploadScript cfgPrepared [80] (fun _ => ⟨some [], true, true⟩)).1.filePath = []) ∧
    (Provision cfgPrepared [80] (fun _ => ⟨some [], true, true⟩)
      (fun _ => .exited 0 [] [])).result = some .emptyFilePath ∧
    (Provision cfgPrepared [80] (fun _ => ⟨some [], true, true⟩)
      (fun _ => .exited 0 [] [])).execCalledWith = none :=
  ⟨⟨by decide, by decide⟩,
    (provision_location_invariant cfgPrepared [80] (fun _ => ⟨some [], true, true⟩)
      (fun _ => .exited 0 [] [])).2.1 (by decide) (by decide)⟩

/-- C8 counterexample: with one upload attempt whose temp file is created
as "T" but whose write fails, `uploadScript` returns a non-nil error
together with a non-empty location handle — the claim that a failing stage
returns an empty location is false on the code. -/
theorem stage_error_nonempty_location_cex :
    (uploadScript { cfgZero with uploadRetryAttempts := 1 } [80]
      (fun _ => ⟨some ['T'], false, true⟩)).2.2 =
      some (.retryExhausted .writeTempError) ∧
    (uploadScript { cfgZero with uploadRetryAttempts := 1 } [80]
      (fun _ => ⟨some ['T'], false, true⟩)).1.filePath = ['T'] := by
  exact ⟨rfl, rfl⟩

/-- C8 (amended): `uploadScript` can return a non-empty location together
with a non-nil error (the name of the last attempt's temp file), but that
location is never consumed: whenever staging reports an error, `Provision`
returns exactly that error without invoking the executor, so a staged
location is used only after staging succeeded. -/
theorem stage_error_location_unused (cfg : Config) (payload : List Nat)
    (uenv : Nat → UploadAttemptEnv) (xenv : Nat → AttemptResult) (e : GoError)
    (h : (uploadScript cfg payload uenv).2.2 = some e) :
    (Provision cfg payload uenv xenv).result = some e ∧
    (Provision cfg payload uenv xenv).execCalledWith = none ∧
    (Provision cfg payload uenv xenv).remoteCommands = [] := by
  rw [Provision_upload_err cfg payload uenv xenv e h]
  exact ⟨rfl, rfl, rfl⟩

/-- C8 witness: on the counterexample environment the workflow returns the
staging error and never invokes the executor. -/
theorem stage_error_location_unused_witness :
    ((uploadScript { cfgZero with uploadRetryAttempts := 1 } [80]
      (fun _ => ⟨some ['T'], false, true⟩)).2.2 =
      some (.retryExhausted .writeTempError)) ∧
    (Provision { cfgZero with uploadRetryAttempts := 1 } [80]
      (fun _ => ⟨some ['T'], false, true⟩) (fun _ => .exited 0 [] [])).result =
      some (.retryExhausted .writeTempError) :=
  ⟨by decide,
    (stage_error_location_unused { cfgZero with uploadRetryAttempts := 1 } [80]
      (fun _ => ⟨some ['T'], false, true⟩) (fun _ => .exited 0 [] [])
      (.retryExhausted .writeTempError) (by decide)).1⟩

/-- C9: staging is a purely local operation: its result path and its
error/attempt outcome are identical for any two non-empty payloads under
the same filesystem environment (the payload bytes influence nothing but
file contents), every payload write goes to a local temp file whose name
came from `os.CreateTemp`, and every command later sent over the remote
channel is determined by the returned path string alone. -/
theorem stage_frame_property (cfg : Config) (p q : List Nat)
    (uenv : Nat → UploadAttemptEnv) (hp : p ≠ []) (hq : q ≠ []) :
    (uploadScript cfg p uenv).1.filePath = (uploadScript cfg q uenv).1.filePath ∧
    (uploadScript cfg p uenv).2 = (uploadScript cfg q uenv).2 ∧
    (∀ w ∈ (uploadScript cfg p uenv).1.localWrites,
      w.2 = p ∧ ∃ j, (uenv j).createTemp = some w.1) ∧
    (∀ (fp : List Char) (xenv : Nat → AttemptResult),
      ∀ c ∈ (runWindowsUpdate cfg fp xenv).1.remoteCommands,
        c = getWindowsUpdateCommand fp) := by
  have hpl : ¬ p.length = 0 := by simpa [List.length_eq_zero] using hp
  have hql : ¬ q.length = 0 := by simpa [List.length_eq_zero] using hq
  have hind := uploadAux_payload_indep p q uenv cfg.uploadRetryAttempts 0 none
    ⟨[], []⟩ ⟨[], []⟩ rfl
  refine ⟨?_, ?_, ?_, ?_⟩
  · unfold uploadScript retryRun
    rw [if_neg hpl, if_neg hql]
    exact hind.1
  · unfold uploadScript retryRun
    rw [if_neg hpl, if_neg hql]
    exact hind.2
  · unfold uploadScript retryRun
    rw [if_neg hpl]
    exact retryRunAux_invariant (uploadAttempt p uenv)
      (fun s => ∀ w ∈ s.localWrites, w.2 = p ∧ ∃ j, (uenv j).createTemp = some w.1)
      (fun i s hs => uploadAttempt_writes_invariant p uenv i s hs)
      cfg.uploadRetryAttempts 0 none ⟨[], []⟩ (by simp)
  · intro fp xenv
    by_cases hfp : fp.length = 0
    · unfold runWindowsUpdate
      rw [if_pos hfp]
      simp [initRunState]
    · unfold runWindowsUpdate retryRun
      rw [if_neg hfp]
      exact retryRunAux_invariant (updateAttempt (getWindowsUpdateCommand fp) xenv)
        (fun s => ∀ c ∈ s.remoteCommands, c = getWindowsUpdateCommand fp)
        (fun i s hs =>
          updateAttempt_commands_invariant (getWindowsUpdateCommand fp) xenv i s hs)
        cfg.updateRetryAttempts 0 none initRunState (by simp [initRunState])

/-- C9 witness: payloads `[1]` and `[2]` staged under the same environment
land at the same path. -/
theorem stage_frame_property_witness :
    (([1] : List Nat) ≠ [] ∧ ([2] : List Nat) ≠ []) ∧
    (uploadScript cfgPrepared [1] (fun _ => ⟨some ['T'], true, true⟩)).1.filePath =
      (uploadScript cfgPrepared [2] (fun _ => ⟨some ['T'], true, true⟩)).1.filePath :=
  ⟨⟨by decide, by decide⟩,
    (stage_frame_property cfgPrepared [1] [2] (fun _ => ⟨some ['T'], true, true⟩)
      (by decide) (by decide)).1⟩

/-- C1: with staging succeeding and every execution attempt exiting with
code 101, `runWindowsUpdate` stops after a single attempt (no retry is
issued) and classifies the run as success (error `none`, final code 101) —
but `Provision` then fails anyway: its final non-zero-status check turns
the restart-pending success into an error carrying 101 instead of
returning success, contradicting the claimed Done transition for
success-classified exits. -/
theorem provision_restart_pending_fails :
    (runWindowsUpdate cfgPrepared ['T'] (fun _ => .exited 101 [] [])).2.1 = 1 ∧
    (runWindowsUpdate cfgPrepared ['T'] (fun _ => .exited 101 [] [])).2.2.1 = 101 ∧
    (runWindowsUpdate cfgPrepared ['T'] (fun _ => .exited 101 [] [])).2.2.2 = none ∧
    (Provision cfgPrepared [80] (fun _ => ⟨some ['T'], true, true⟩)
      (fun _ => .exited 101 [] [])).result = some (.provisionNonZeroExit 101) := by
  exact ⟨by decide, by decide, by decide, by decide⟩

/-- C7: on a configuration whose `update_retry_attempts` is unset (decoded
value 0), `Prepare`'s defaulting sets the field to
`DefaultUpdateRetryAttempts`, which is 5 — not the 3 of
`DefaultUpdateAttempts` that the field's own documentation comment and the
spec name as the default. -/
theorem prepare_update_retry_default :
    cfgZero.updateRetryAttempts = 0 ∧
    (prepareDefaults cfgZero).updateRetryAttempts = DefaultUpdateRetryAttempts ∧
    DefaultUpdateRetryAttempts = 5 ∧ DefaultUpdateAttempts = 3 ∧
    (prepareDefaults cfgZero).updateRetryAttempts ≠ DefaultUpdateAttempts := by
  exact ⟨rfl, rfl, rfl, rfl, by decide⟩

/-- Every 6-bit value maps to a distinct alphabet character whose value
maps back, and never to the padding character. -/
theorem b64_val_char : ∀ n, n < 64 → b64Val (b64Char n) = n ∧ b64Char n ≠ '=' := by
  decide

/-- Every byte produced by the little-endian layout is below 256. -/
theorem utf16LeBytes_lt : ∀ (rs : List Nat), ∀ b ∈ utf16LeBytes rs, b < 256
  | [] => by simp [utf16LeBytes]
  | r :: rest => by
      intro b hb
      simp only [utf16LeBytes, List.mem_cons] at hb
      rcases hb with rfl | hb
      · omega
      rcases hb with rfl | hb
      · omega
      · exact utf16LeBytes_lt rest b hb

/-- Standard base64 decoding undoes the encoding on any byte list. -/
theorem base64_roundtrip : ∀ (bs : List Nat), (∀ b ∈ bs, b < 256) →
    base64DecodeChars (base64EncodeChunks bs) = bs
  | [], _ => rfl
  | [b1], h => by
      have hb1 : b1 < 256 := h b1 (by simp)
      simp only [base64EncodeChunks, base64DecodeChars]
      rw [if_true]
      rw [(b64_val_char (b1 / 4) (by omega)).1, (b64_val_char (b1 % 4 * 16) (by omega)).1]
      have h1 : b1 / 4 * 4 + b1 % 4 * 16 / 16 = b1 := by omega
      rw [h1]
  | [b1, b2], h => by
      have hb1 : b1 < 256 := h b1 (by simp)
      have hb2 : b2 < 256 := h b2 (by simp)
      simp only [base64EncodeChunks, base64DecodeChars]
      rw [if_neg (b64_val_char (b2 % 16 * 4) (by omega)).2]
      rw [if_true]
      rw [(b64_val_char (b1 / 4) (by omega)).1,
        (b64_val_char (b1 % 4 * 16 + b2 / 16) (by omega)).1,
        (b64_val_char (b2 % 16 * 4) (by omega)).1]
      have h1 : b1 / 4 * 4 + (b1 % 4 * 16 + b2 / 16) / 16 = b1 := by omega
      have h2 : (b1 % 4 * 16 + b2 / 16) % 16 * 16 + b2 % 16 * 4 / 4 = b2 := by omega
      rw [h1, h2]
  | b1 :: b2 :: b3 :: rest, h => by
      have hb1 : b1 < 256 := h b1 (by simp)
      have hb2 : b2 < 256 := h b2 (by simp)
      have hb3 : b3 < 256 := h b3 (by simp)
      have ih := base64_roundtrip rest (fun b hb => h b (by simp [hb]))
      simp only [base64EncodeChunks, base64DecodeChars]
      rw [if_neg (b64_val_char (b2 % 16 * 4 + b3 / 64) (by omega)).2]
      rw [if_neg (b64_val_char (b3 % 64) (by omega)).2]
      rw [(b64_val_char (b1 / 4) (by omega)).1,
        (b64_val_char (b1 % 4 * 16 + b2 / 16) (by omega)).1,
        (b64_val_char (b2 % 16 * 4 + b3 / 64) (by omega)).1,
        (b64_val_char (b3 % 64) (by omega)).1]
      rw [ih]
      have h1 : b1 / 4 * 4 + (b1 % 4 * 16 + b2 / 16) / 16 = b1 := by omega
      have h2 : (b1 % 4 * 16 + b2 / 16) % 16 * 16 + (b2 % 16 * 4 + b3 / 64) / 4 = b2 := by
        omega
      have h3 : (b2 % 16 * 4 + b3 / 64) % 4 * 64 + b3 % 64 = b3 := by omega
      rw [h1, h2, h3]

/-- On printable-ASCII strings (one code unit per character) the code's
UTF-16LE layout agrees with the spec-side byte sequence. -/
theorem encodeUtf16Le_ascii : ∀ (s : List Char), (∀ c ∈ s, c.toNat ≤ 0x7E) →
    encodeUtf16Le s = specUtf16leBytes s
  | [], _ => rfl
  | c :: rest, h => by
      have hc : c.toNat ≤ 0x7E := h c (by simp)
      have ih := encodeUtf16Le_ascii rest (fun d hd => h d (by simp [hd]))
      simp only [encodeUtf16Le, utf16Encode, specUtf16leBytes] at ih ⊢
      rw [utf16EncodeChar, if_pos (by omega : c.toNat < 0xD800)]
      simp [utf16LeBytes, ih]

/-- C3: for printable-ASCII script strings, the command built by
`getWindowsUpdateCommand` is the fixed PowerShell invocation text followed
by the base64 encoding of the UTF-16LE bytes of the string, and
base64-decoding that `-EncodedCommand` argument yields exactly the
little-endian 16-bit code-unit bytes of the original string with no
byte-order mark — including for strings containing quotes and the literal
payload path. -/
theorem encoded_command_roundtrip (s : List Char)
    (h : ∀ c ∈ s, 0x20 ≤ c.toNat ∧ c.toNat ≤ 0x7E) :
    getWindowsUpdateCommand s = commandHeadText ++ base64EncodeChunks (encodeUtf16Le s) ∧
    base64DecodeChars (base64EncodeChunks (encodeUtf16Le s)) = specUtf16leBytes s := by
  refine ⟨rfl, ?_⟩
  rw [base64_roundtrip (encodeUtf16Le s) (utf16LeBytes_lt (utf16Encode s))]
  exact encodeUtf16Le_ascii s (fun c hc => (h c hc).2)

/-- C3 witness: the round trip on a quoted payload path. -/
theorem encoded_command_roundtrip_witness :
    (∀ c ∈ ("Invoke \"C:/Temp/Invoke-WinUpdate.ps1\"".toList),
      0x20 ≤ c.toNat ∧ c.toNat ≤ 0x7E) ∧
    base64DecodeChars (base64EncodeChunks
      (encodeUtf16Le ("Invoke \"C:/Temp/Invoke-WinUpdate.ps1\"".toList))) =
      specUtf16leBytes ("Invoke \"C:/Temp/Invoke-WinUpdate.ps1\"".toList) :=
  ⟨by decide,
    (encoded_command_roundtrip ("Invoke \"C:/Temp/Invoke-WinUpdate.ps1\"".toList)
      (by decide)).2⟩

end Update
